import Mathlib

/-!
Shallow embedding of the VRCTalk whisper transcription pipeline
(src/src-tauri/src/whisper.rs) and proofs about it.

Modelling conventions:
  * Byte buffers are `List UInt8`; 16-bit samples are `Int`; floating-point
    samples are modelled exactly as `ℚ` (division by the power of two 32768
    is exact in f32, so normalization is faithful; threshold comparisons are
    idealized to exact arithmetic).
  * The filesystem is a list of (path, size) pairs; the network is a function
    from filename to `Option Nat` (`some n` = a successful download writing
    `n` bytes, `none` = a failed request).
  * A Rust panic is modelled as `none` in an `Option`-wrapped result.
  * The hound WAV reader is modelled by `wavHeader`/`readSamples`, a strict
    16-bit-PCM subset of the container format: RIFF/WAVE magic, a chunk loop
    that requires a plain PCM `fmt ` chunk (tag 1, nonzero channels, 16 bits)
    before the `data` chunk; inputs outside this subset are rejected, which
    matches the code path where `WavReader::new` fails and the raw-PCM branch
    runs.
  * The whisper inference engine is abstract: a function from (language hint,
    samples) to a raw transcription or an engine error.
-/

deriving instance DecidableEq for Except

namespace VRCTalk

/-- Little-endian 16-bit unsigned value of two bytes. -/
def u16le (a b : UInt8) : Nat := a.toNat + 256 * b.toNat

/-- Little-endian 32-bit unsigned value of four bytes. -/
def u32le (a b c d : UInt8) : Nat :=
  a.toNat + 256 * b.toNat + 65536 * c.toNat + 16777216 * d.toNat

/-- `i16::from_le_bytes` on two bytes. -/
def i16le (a b : UInt8) : Int :=
  let v := u16le a b
  if v < 32768 then (v : Int) else (v : Int) - 65536

/-- Decode a byte stream as consecutive little-endian signed 16-bit samples,
`chunks_exact(2)`: a trailing odd byte is dropped. -/
def pcmDecode : List UInt8 → List Int
  | a :: b :: rest => i16le a b :: pcmDecode rest
  | _ => []

/-- The static model registry `MODEL_CONFIGS`:
(identifier, huggingface repo, required ggml files). -/
def MODEL_CONFIGS : List (String × String × List String) :=
  [("tiny", "ggerganov/whisper.cpp", ["ggml-tiny.bin"]),
   ("base", "ggerganov/whisper.cpp", ["ggml-base.bin"]),
   ("small", "ggerganov/whisper.cpp", ["ggml-small.bin"]),
   ("medium", "ggerganov/whisper.cpp", ["ggml-medium.bin"]),
   ("large", "ggerganov/whisper.cpp", ["ggml-large-v3.bin"])]

/-- Local path of a required file inside a model directory
(`get_model_path(app, id).join(file)`). -/
def modelFilePath (modelId file : String) : String :=
  "whisper_models/" ++ modelId ++ "/" ++ file

/-- The model file `whisper_transcribe` checks and loads:
`model_path.join(format ggml-<model>.bin)`. -/
def modelFileFor (model : String) : String :=
  "whisper_models/" ++ model ++ "/ggml-" ++ model ++ ".bin"

/-- Lookup of a file size in the modelled filesystem. -/
def fsLookup (fs : List (String × Nat)) (p : String) : Option Nat :=
  (fs.find? (fun e => e.1 == p)).map (fun e => e.2)

/-- Create/overwrite a file with the given size. -/
def fsSet (fs : List (String × Nat)) (p : String) (n : Nat) : List (String × Nat) :=
  (p, n) :: fs.filter (fun e => e.1 != p)

/-- `validate_audio_data`: rejects empty input and input larger than 20 MB. -/
def validate_audio_data (bytes : List UInt8) : Except String Unit :=
  if bytes.isEmpty then .error "Audio data is empty"
  else if 20000000 < bytes.length then .error "Audio data too large (>20MB)"
  else .ok ()

/-- `detect_audio_format`: the (unused by the pipeline) first-4-bytes check. -/
def detect_audio_format (bytes : List UInt8) : Except String String :=
  if bytes.length < 4 then .error "Audio data too short for format detection"
  else if bytes.take 4 = [0x52, 0x49, 0x46, 0x46] then .ok "WAV"
  else .ok "PCM"

/-- Declared WAV format data read from the `fmt ` chunk. -/
structure WavSpec where
  channels : Nat
  sampleRate : Nat
  bitsPerSample : Nat
deriving DecidableEq

/-- ASCII bytes of the literal RIFF. -/
def riffId : List UInt8 := [0x52, 0x49, 0x46, 0x46]

/-- ASCII bytes of the literal WAVE. -/
def waveId : List UInt8 := [0x57, 0x41, 0x56, 0x45]

/-- ASCII bytes of the chunk id fmt-space. -/
def fmtId : List UInt8 := [0x66, 0x6d, 0x74, 0x20]

/-- ASCII bytes of the chunk id data. -/
def dataId : List UInt8 := [0x64, 0x61, 0x74, 0x61]

/-- Chunk loop of the WAV reader: scans chunks until the `data` chunk,
parsing a plain 16-bit PCM `fmt ` chunk on the way. Returns the declared
format, the `data` chunk length and the bytes from the start of the data.
`fuel` only bounds the recursion (chunk skipping consumes bytes). -/
def findDataChunk : Nat → Option WavSpec → List UInt8 →
    Option (WavSpec × Nat × List UInt8)
  | 0, _, _ => none
  | fuel + 1, spec?, bytes =>
    match bytes with
    | i0 :: i1 :: i2 :: i3 :: l0 :: l1 :: l2 :: l3 :: rest =>
      let len := u32le l0 l1 l2 l3
      if [i0, i1, i2, i3] = fmtId then
        if len = 16 then
          match rest with
          | f0 :: f1 :: c0 :: c1 :: r0 :: r1 :: r2 :: r3 ::
              _b0 :: _b1 :: _b2 :: _b3 :: _a0 :: _a1 :: s0 :: s1 :: tail =>
            if u16le f0 f1 = 1 ∧ u16le c0 c1 ≠ 0 ∧ u16le s0 s1 = 16 then
              findDataChunk fuel (some ⟨u16le c0 c1, u32le r0 r1 r2 r3, 16⟩) tail
            else none
          | _ => none
        else none
      else if [i0, i1, i2, i3] = dataId then
        match spec? with
        | some spec => if len % 2 = 0 then some (spec, len, rest) else none
        | none => none
      else
        if len ≤ rest.length then findDataChunk fuel spec? (rest.drop len) else none
    | _ => none

/-- WAV header parse (`WavReader::new`): RIFF magic, file length, WAVE magic,
then the chunk loop. `none` models a reader-construction failure, after which
the code treats the input as raw PCM. -/
def wavHeader (bytes : List UInt8) : Option (WavSpec × Nat × List UInt8) :=
  match bytes with
  | r0 :: r1 :: r2 :: r3 :: _s0 :: _s1 :: _s2 :: _s3 :: w0 :: w1 :: w2 :: w3 :: rest =>
    if [r0, r1, r2, r3] = riffId ∧ [w0, w1, w2, w3] = waveId then
      findDataChunk (bytes.length + 1) none rest
    else none
  | _ => none

/-- Reading the declared number of data bytes as i16 samples
(`reader.samples::<i16>().collect()`); a truncated data chunk is a read
error, modelled as `none`. -/
def readSamples (rest : List UInt8) (dataLen : Nat) : Option (List Int) :=
  if dataLen ≤ rest.length then some (pcmDecode (rest.take dataLen))
  else none

/-- Stereo downmix: `samples.chunks(2).map(|c| ((c[0] + c[1]) / 2) as i16)`.
On an odd-length input the final one-element chunk is indexed at 1, a panic,
modelled as `none`. -/
def downmixStereo : List Int → Option (List Int)
  | [] => some []
  | [_] => none
  | a :: b :: rest => (downmixStereo rest).map (fun r => Int.tdiv (a + b) 2 :: r)

/-- Nearest-neighbour resampling to 16 kHz by index selection. -/
def resample (floats : List ℚ) (srcRate : Nat) : List ℚ :=
  let r : ℚ := (srcRate : ℚ) / 16000
  let newLen : Nat := (((floats.length : ℚ) / r).floor).toNat
  (List.range newLen).filterMap (fun i => floats.get? ((((i : ℚ) * r).floor).toNat))

/-- The WAV branch of `process_audio_for_whisper` applied to the decoded
samples: optional stereo downmix (which can panic), division by 32768,
optional resample. -/
def processWavSamples (spec : WavSpec) (samples : List Int) :
    Option (Except String (List ℚ)) :=
  match (if spec.channels = 2 then downmixStereo samples else some samples) with
  | none => none
  | some mono =>
    let floats := mono.map (fun s : Int => (s : ℚ) / 32768)
    if spec.sampleRate ≠ 16000 then some (.ok (resample floats spec.sampleRate))
    else some (.ok floats)

/-- `process_audio_for_whisper`: try the WAV reader; on success decode and
convert, on failure treat the bytes as raw 16-bit little-endian PCM
(even length required). `none` models a panic. -/
def process_audio_for_whisper (bytes : List UInt8) :
    Option (Except String (List ℚ)) :=
  match wavHeader bytes with
  | some (spec, dataLen, rest) =>
    match readSamples rest dataLen with
    | none => some (.error "Failed to read WAV samples")
    | some samples => processWavSamples spec samples
  | none =>
    if bytes.length % 2 ≠ 0 then
      some (.error "Raw PCM data length must be even (16-bit samples)")
    else some (.ok ((pcmDecode bytes).map (fun s : Int => (s : ℚ) / 32768)))

/-- Sum of the squares of a sample buffer. -/
def sumSquares (l : List ℚ) : ℚ := (l.map (fun x => x * x)).sum

/-- Mean of the squares; the buffer RMS of the source is its square root. -/
def meanSquare (l : List ℚ) : ℚ := sumSquares l / (l.length : ℚ)

/-- Peak amplitude: `iter().map(abs).fold(0.0, max)`. -/
def peakAmp (l : List ℚ) : ℚ := (l.map (fun x => |x|)).foldl max 0

/-- Decides `sqrt x > sqrt y + c` for nonnegative rationals `x`, `y` and
positive `c`, using the algebraic equivalent
`x - y > c^2 and (x - y - c^2)^2 > 4 c^2 y` (certified against `Real.sqrt`
by `sqrtGapGt_iff` below). -/
def sqrtGapGt (x y c : ℚ) : Bool :=
  decide (c ^ 2 < x - y ∧ 4 * c ^ 2 * y < (x - y - c ^ 2) ^ 2)

/-- Decides whether the RMS values `sqrt x` and `sqrt y` differ by more
than `c` (the source compares `(segment_rms - next_segment_rms).abs() > c`). -/
def rmsDiffGt (x y c : ℚ) : Bool := sqrtGapGt x y c || sqrtGapGt y x c

/-- The `amplitude_changes` loop of `detect_speech_activity`: with
`w = len / 10`, for each `i < 9` compare the RMS of `[i*w, (i+1)*w)` with the
RMS of the next window (`[(i+1)*w, (i+2)*w)`, the last one extending to the
end of the buffer), counting differences above 0.015. -/
def amplitudeChanges (a : List ℚ) : Nat :=
  let n := a.length
  let w := n / 10
  if 0 < w then
    (List.range 9).foldl (fun acc i =>
      let segMs := sumSquares ((a.drop (i * w)).take w) / (w : ℚ)
      let nextEnd := if i + 2 < 10 then (i + 2) * w else n
      let nextLen := nextEnd - (i + 1) * w
      let nextMs := sumSquares ((a.drop ((i + 1) * w)).take nextLen) / (nextLen : ℚ)
      if rmsDiffGt segMs nextMs (3 / 200) then acc + 1 else acc) 0
  else 0

/-- `detect_speech_activity`: false on an empty buffer or fewer than 8000
samples; otherwise true iff RMS > 0.02 (`meanSquare > (1/50)^2`), peak > 0.1,
and at least 3 amplitude changes. Never returns an error. -/
def detect_speech_activity (a : List ℚ) : Except String Bool :=
  if a.isEmpty then .ok false
  else if a.length < 8000 then .ok false
  else
    let hasEnergy := decide ((1 : ℚ) / 2500 < meanSquare a)
    let hasPeaks := decide ((1 : ℚ) / 10 < peakAmp a)
    let hasVariation := decide (3 ≤ amplitudeChanges a)
    .ok (hasEnergy && hasPeaks && hasVariation)

/-- Mean square of segment `i` of the 10-segment split used by the gate:
segment `i < 9` is `[i*w, (i+1)*w)` with `w = len / 10`; segment 9 extends to
the end of the buffer. -/
def segMeanSq (a : List ℚ) (i : Nat) : ℚ :=
  let w := a.length / 10
  let start := i * w
  let stop := if i = 9 then a.length else (i + 1) * w
  sumSquares ((a.drop start).take (stop - start)) / ((stop - start : Nat) : ℚ)

/-- The mean squares of the 10 segments. -/
def segMeanSqs (a : List ℚ) : List ℚ := (List.range 10).map (segMeanSq a)

/-- Number of the 9 adjacent-segment pairs whose RMS values differ by more
than 0.015. -/
def adjacentRmsDiffs (a : List ℚ) : Nat :=
  ((segMeanSqs a).zip ((segMeanSqs a).drop 1)).countP
    (fun q => rmsDiffGt q.1 q.2 (3 / 200))

/-- Language hint passed to the engine (`run_inference_on_context`): known
locale tags map to their 2-letter code, any other tag of length at least 2 is
truncated to its first two characters, anything shorter defaults to en. -/
def whisperLang (language : String) : String :=
  match language with
  | "en-US" | "en" => "en"
  | "ja-JP" | "ja" => "ja"
  | "ko-KR" | "ko" => "ko"
  | "id-ID" | "id" => "id"
  | "zh-CN" | "zh" => "zh"
  | "es-ES" | "es" => "es"
  | "fr-FR" | "fr" => "fr"
  | "de-DE" | "de" => "de"
  | "it-IT" | "it" => "it"
  | "pt-PT" | "pt" => "pt"
  | "ru-RU" | "ru" => "ru"
  | "nl-NL" | "nl" => "nl"
  | "pl-PL" | "pl" => "pl"
  | "tr-TR" | "tr" => "tr"
  | "vi-VN" | "vi" => "vi"
  | "th-TH" | "th" => "th"
  | lang => if 2 ≤ lang.length then lang.take 2 else "en"

/-- Post-processing of the concatenated segment texts: trim, strip the
hallucination markers by literal replacement, trim again. -/
def cleanTranscription (t : String) : String :=
  ((((((((t.trim).replace "[BLANK_AUDIO]" "").replace "(BLANK_AUDIO)" "").replace
      "[MUSIC]" "").replace "[NOISE]" "").replace "(music)" "").replace
      "(inaudible)" "").replace "..." "").trim

/-- `run_inference_on_context`: the abstract engine is called with the
2-letter language hint and the samples; its concatenated output is cleaned.
Engine-level failures (state creation, inference, segment reads) are the
engine function returning an error. -/
def run_inference_on_context (engine : String → List ℚ → Except String String)
    (samples : List ℚ) (language : String) : Except String String :=
  match engine (whisperLang language) samples with
  | .error e => .error e
  | .ok t => .ok (cleanTranscription t)

/-- Reload test on the cached slot: reload when the slot is empty or holds a
different identifier. -/
def needsReload (slot : Option String) (model : String) : Bool :=
  match slot with
  | none => true
  | some cached => cached != model

/-- The critical section of `whisper_transcribe` under the state lock:
reload the context if needed (`load` is the outcome of
`WhisperContext::new`), then run inference on the now-current slot.
Returns (final slot, whether the engine was invoked, call result). -/
def inferLocked (slot : Option String) (load : Except String Unit)
    (engine : String → List ℚ → Except String String)
    (samples : List ℚ) (model language : String) :
    Option String × Bool × Except String String :=
  match (if needsReload slot model then
           match load with
           | .error e => .error e
           | .ok _ => .ok (some model)
         else .ok slot : Except String (Option String)) with
  | .error e => (slot, false, .error ("Failed to create WhisperContext: " ++ e))
  | .ok slot' =>
    match slot' with
    | some _ => (slot', true, run_inference_on_context engine samples language)
    | none => (slot', false, .error "Whisper context is missing")

/-- Process-level context of a transcribe call: the filesystem, the cached
model slot, the outcome of a context load, and the inference engine. -/
structure TranscribeEnv where
  files : List (String × Nat)
  slot : Option String
  load : Except String Unit
  engine : String → List ℚ → Except String String

/-- Observable outcome of a transcribe call: the result, whether the model
store was consulted (path computed/checked), whether the slot lock was
acquired, whether the engine was invoked, and the final slot. -/
structure TranscribeOutcome where
  result : Except String String
  storeTouched : Bool
  lockAcquired : Bool
  engineInvoked : Bool
  slot : Option String
deriving DecidableEq

/-- Stage of `whisper_transcribe` after the speech gate has passed: compute
the model path, check the ggml file exists (no registry lookup happens here),
then lock the slot and run `inferLocked`. -/
def transcribeAfterGate (env : TranscribeEnv) (samples : List ℚ)
    (model language : String) : TranscribeOutcome :=
  if (fsLookup env.files (modelFileFor model)).isSome then
    match inferLocked env.slot env.load env.engine samples model language with
    | (slot', invoked, res) => ⟨res, true, true, invoked, slot'⟩
  else
    ⟨.error ("Model file missing: " ++ modelFileFor model), true, false, false, env.slot⟩

/-- `whisper_transcribe`: validate, normalize, gate (early empty-string
return when no speech), then the post-gate stage. `none` models a panic in
audio processing. -/
def whisperTranscribe (env : TranscribeEnv) (bytes : List UInt8)
    (model language : String) : Option TranscribeOutcome :=
  match validate_audio_data bytes with
  | .error e => some ⟨.error e, false, false, false, env.slot⟩
  | .ok _ =>
    match process_audio_for_whisper bytes with
    | none => none
    | some (.error e) => some ⟨.error e, false, false, false, env.slot⟩
    | some (.ok samples) =>
      match detect_speech_activity samples with
      | .ok false => some ⟨.ok "", false, false, false, env.slot⟩
      | _ => some (transcribeAfterGate env samples model language)

/-- Per-file loop of `whisper_download_model`: skip a file that exists with
nonzero size, otherwise download it (recording it in the download list); a
failed download aborts the call. -/
def downloadFiles (net : String → Option Nat) (modelId : String) :
    List String → List (String × Nat) → List String →
    Except String (List (String × Nat) × List String)
  | [], fs, dl => .ok (fs, dl)
  | f :: rest, fs, dl =>
    let path := modelFilePath modelId f
    match fsLookup fs path with
    | some sz =>
      if 0 < sz then downloadFiles net modelId rest fs dl
      else
        match net f with
        | some n => downloadFiles net modelId rest (fsSet fs path n) (dl ++ [f])
        | none => .error ("Failed to download " ++ f)
    | none =>
      match net f with
      | some n => downloadFiles net modelId rest (fsSet fs path n) (dl ++ [f])
      | none => .error ("Failed to download " ++ f)

/-- `whisper_download_model`: validate the identifier against the registry,
then ensure every required file. Returns the resulting filesystem and the
list of files actually downloaded (the instrumentation used to state
idempotence). -/
def whisper_download_model (net : String → Option Nat)
    (fs : List (String × Nat)) (model : String) :
    Except String (List (String × Nat) × List String) :=
  match MODEL_CONFIGS.find? (fun c => c.1 == model) with
  | none => .error ("Unknown model: " ++ model)
  | some cfg => downloadFiles net cfg.1 cfg.2.2 fs []

/-- The modelled filesystem has the file at `p` with nonzero size. -/
def fsPosAt (fs : List (String × Nat)) (p : String) : Prop :=
  ∃ n, fsLookup fs p = some n ∧ 0 < n

/-- A minimal valid mono 16 kHz 16-bit WAV file with two samples 256, 512. -/
def monoWav : List UInt8 :=
  [0x52, 0x49, 0x46, 0x46, 0, 0, 0, 0, 0x57, 0x41, 0x56, 0x45,
   0x66, 0x6d, 0x74, 0x20, 16, 0, 0, 0, 1, 0, 1, 0, 0x80, 0x3E, 0, 0,
   0, 0x7D, 0, 0, 2, 0, 16, 0,
   0x64, 0x61, 0x74, 0x61, 4, 0, 0, 0, 0, 1, 0, 2]

/-- A valid stereo 16 kHz 16-bit WAV file whose data chunk holds an odd
number (three) of 16-bit samples. -/
def stereoOddWav : List UInt8 :=
  [0x52, 0x49, 0x46, 0x46, 0, 0, 0, 0, 0x57, 0x41, 0x56, 0x45,
   0x66, 0x6d, 0x74, 0x20, 16, 0, 0, 0, 1, 0, 2, 0, 0x80, 0x3E, 0, 0,
   0, 0xFA, 0, 0, 4, 0, 16, 0,
   0x64, 0x61, 0x74, 0x61, 6, 0, 0, 0, 1, 0, 2, 0, 3, 0]

/-- A list of odd length makes the stereo downmix panic (`none`): the final
`chunks(2)` chunk has one element and is indexed at position 1. -/
theorem downmix_odd : ∀ l : List Int, l.length % 2 = 1 → downmixStereo l = none
  | [], h => by simp at h
  | [_], _ => rfl
  | a :: b :: rest, h => by
    have hr : rest.length % 2 = 1 := by
      simp only [List.length_cons] at h
      omega
    simp [downmixStereo, downmix_odd rest hr]

/-- C2 counterexample: with model base cached and a failing context load for
model small, the call fails but the slot still holds base — it does not
become empty, contrary to the claim. -/
theorem C2_counterexample :
    inferLocked (some "base") (.error "bad magic") (fun _ _ => .ok "") [] "small" "en"
        = (some "base", false, .error "Failed to create WhisperContext: bad magic") ∧
    (some "base" : Option String) ≠ none :=
  ⟨rfl, by simp⟩

/-- C2 (amended): whenever a reload is needed and context initialization
fails, the call fails with the load error and the slot is left completely
untouched — the previous contents (if any) are retained, never cleared. -/
theorem C2_slot_untouched_on_load_failure (slot : Option String) (e : String)
    (engine : String → List ℚ → Except String String) (samples : List ℚ)
    (model lang : String) (h : needsReload slot model = true) :
    inferLocked slot (.error e) engine samples model lang =
      (slot, false, .error ("Failed to create WhisperContext: " ++ e)) := by
  simp [inferLocked, h]

/-- Witness for C2 (amended) at a concrete input. -/
theorem C2_slot_untouched_witness :
    inferLocked none (.error "x") (fun _ _ => .ok "") [] "tiny" "en"
      = (none, false, .error "Failed to create WhisperContext: x") :=
  C2_slot_untouched_on_load_failure none "x" (fun _ _ => .ok "") [] "tiny" "en" rfl

/-- C9: the language hint handed to the engine is always the first two
characters of the tag when its length is at least 2 (every explicit locale
arm agrees with this truncation), and en otherwise. -/
theorem C9_language_truncation (language : String) :
    whisperLang language = if 2 ≤ language.length then language.take 2 else "en" := by
  unfold whisperLang
  split <;> rfl

/-- C6: whenever the speech gate returns false on the normalized samples,
the call returns the empty string with the model store never consulted, the
lock never acquired, the engine never invoked, and the slot unchanged. -/
theorem C6_silent_early_exit (env : TranscribeEnv) (clip : List UInt8)
    (model lang : String) (samples : List ℚ)
    (hv : validate_audio_data clip = .ok ())
    (hp : process_audio_for_whisper clip = some (.ok samples))
    (hg : detect_speech_activity samples = .ok false) :
    whisperTranscribe env clip model lang =
      some ⟨.ok "", false, false, false, env.slot⟩ := by
  unfold whisperTranscribe
  simp only [hv, hp, hg]

/-- Witness for C6: an all-zero clip yields the empty string with no store,
lock or engine activity. -/
theorem C6_witness :
    whisperTranscribe ⟨[], none, .ok (), fun _ _ => .ok "speech"⟩
        (List.replicate 10 0) "tiny" "en"
      = some ⟨.ok "", false, false, false, none⟩ :=
  C6_silent_early_exit ⟨[], none, .ok (), fun _ _ => .ok "speech"⟩
    (List.replicate 10 0) "tiny" "en"
    ((pcmDecode (List.replicate 10 0)).map (fun s : Int => (s : ℚ) / 32768))
    rfl rfl rfl

/-- C1 counterexample: a transcribe request for the identifier bogus — which
is not in the registry — does not fail with UnknownModel: on a silent clip it
returns the empty string successfully. -/
theorem C1_counterexample :
    whisperTranscribe ⟨[], none, .ok (), fun _ _ => .ok ""⟩
        (List.replicate 10 0) "bogus" "en"
        = some ⟨.ok "", false, false, false, none⟩ ∧
    MODEL_CONFIGS.all (fun c => c.1 != "bogus") = true :=
  ⟨rfl, rfl⟩

/-- C1 (amended): the transcribe path performs no registry validation — for
any identifier whatsoever (known or unknown), once the gate passes, the model
store path is computed and checked, and an absent model file fails with a
model-file-missing error, never UnknownModel. -/
theorem C1_no_registry_validation (env : TranscribeEnv) (samples : List ℚ)
    (model lang : String)
    (h : fsLookup env.files (modelFileFor model) = none) :
    transcribeAfterGate env samples model lang =
      ⟨.error ("Model file missing: " ++ modelFileFor model), true, false, false, env.slot⟩ := by
  simp [transcribeAfterGate, h]

/-- Witness for C1 (amended) at a concrete unknown identifier. -/
theorem C1_no_registry_validation_witness :
    transcribeAfterGate ⟨[], none, .ok (), fun _ _ => .ok ""⟩ [] "bogus" "en"
      = ⟨.error ("Model file missing: " ++ modelFileFor "bogus"), true, false, false, none⟩ :=
  C1_no_registry_validation ⟨[], none, .ok (), fun _ _ => .ok ""⟩ [] "bogus" "en" rfl

/-- Lookup on a cons cell. -/
theorem fsLookup_cons (e : String × Nat) (l : List (String × Nat)) (q : String) :
    fsLookup (e :: l) q = if e.1 == q then some e.2 else fsLookup l q := by
  cases he : e.1 == q <;> simp [fsLookup, List.find?, he]

/-- Removing the entries at path `p` does not change lookups elsewhere. -/
theorem fsLookup_filter (fs : List (String × Nat)) (p q : String) (h : q ≠ p) :
    fsLookup (fs.filter (fun e => e.1 != p)) q = fsLookup fs q := by
  induction fs with
  | nil => rfl
  | cons e l ih =>
    rw [List.filter_cons, fsLookup_cons]
    by_cases hep : e.1 = p
    · have hq : (e.1 == q) = false :=
        beq_eq_false_iff_ne.mpr (by rw [hep]; exact fun x => h x.symm)
      have hpred : (e.1 != p) = false := by simp [hep]
      simp [hpred, hq, ih]
    · have hpred : (e.1 != p) = true := by simp [hep]
      simp [hpred, fsLookup_cons, ih]

/-- Lookup after a file write. -/
theorem fsLookup_fsSet (fs : List (String × Nat)) (p : String) (n : Nat) (q : String) :
    fsLookup (fsSet fs p n) q = if q = p then some n else fsLookup fs q := by
  by_cases h : q = p
  · subst h; simp [fsSet, fsLookup_cons]
  · have hpq : (p == q) = false := by
      simp only [beq_eq_false_iff_ne, ne_eq]
      exact fun x => h x.symm
    simp [fsSet, fsLookup_cons, hpq, fsLookup_filter fs p q h, h]

/-- A write of nonzero size preserves nonzero-size facts. -/
theorem fsPosAt_fsSet (fs : List (String × Nat)) (p q : String) (n : Nat)
    (hn : 0 < n) (h : fsPosAt fs q) : fsPosAt (fsSet fs p n) q := by
  by_cases hqp : q = p
  · exact ⟨n, by simp [fsLookup_fsSet, hqp], hn⟩
  · obtain ⟨m, hm, hm0⟩ := h
    exact ⟨m, by simp [fsLookup_fsSet, hqp, hm], hm0⟩

/-- The download loop only writes files of the sizes the network delivers,
so with a network that never delivers empty files it preserves
nonzero-size facts. -/
theorem downloadFiles_pos (net : String → Option Nat) (modelId : String)
    (hnet : ∀ f n, net f = some n → 0 < n) :
    ∀ (files : List String) (fs fs₁ : List (String × Nat)) (dl dl₁ : List String)
      (p : String),
      downloadFiles net modelId files fs dl = .ok (fs₁, dl₁) →
      fsPosAt fs p → fsPosAt fs₁ p
  | [], fs, fs₁, dl, dl₁, p, h, hp => by
    simp only [downloadFiles, Except.ok.injEq, Prod.mk.injEq] at h
    rw [← h.1]; exact hp
  | f :: rest, fs, fs₁, dl, dl₁, p, h, hp => by
    simp only [downloadFiles] at h
    split at h
    · split at h
      · exact downloadFiles_pos net modelId hnet rest fs fs₁ dl dl₁ p h hp
      · split at h
        · rename_i n hnf
          exact downloadFiles_pos net modelId hnet rest _ fs₁ _ dl₁ p h
            (fsPosAt_fsSet fs _ p n (hnet f n hnf) hp)
        · exact absurd h (by simp)
    · split at h
      · rename_i n hnf
        exact downloadFiles_pos net modelId hnet rest _ fs₁ _ dl₁ p h
          (fsPosAt_fsSet fs _ p n (hnet f n hnf) hp)
      · exact absurd h (by simp)

/-- After a successful download-loop run (over a network that never delivers
empty files), every processed file is present with nonzero size. -/
theorem downloadFiles_all_pos (net : String → Option Nat) (modelId : String)
    (hnet : ∀ f n, net f = some n → 0 < n) :
    ∀ (files : List String) (fs fs₁ : List (String × Nat)) (dl dl₁ : List String),
      downloadFiles net modelId files fs dl = .ok (fs₁, dl₁) →
      ∀ f ∈ files, fsPosAt fs₁ (modelFilePath modelId f)
  | [], fs, fs₁, dl, dl₁, h, f, hf => absurd hf (by simp)
  | g :: rest, fs, fs₁, dl, dl₁, h, f, hf => by
    simp only [downloadFiles] at h
    rcases List.mem_cons.mp hf with hfg | hfr
    · subst hfg
      split at h
      · rename_i sz hfl
        split at h
        · rename_i hsz
          exact downloadFiles_pos net modelId hnet rest fs fs₁ dl dl₁ _ h ⟨sz, hfl, hsz⟩
        · split at h
          · rename_i n hnf
            exact downloadFiles_pos net modelId hnet rest _ fs₁ _ dl₁ _ h
              ⟨n, by simp [fsLookup_fsSet], hnet f n hnf⟩
          · exact absurd h (by simp)
      · split at h
        · rename_i n hnf
          exact downloadFiles_pos net modelId hnet rest _ fs₁ _ dl₁ _ h
            ⟨n, by simp [fsLookup_fsSet], hnet f n hnf⟩
        · exact absurd h (by simp)
    · split at h
      · split at h
        · exact downloadFiles_all_pos net modelId hnet rest fs fs₁ dl dl₁ h f hfr
        · split at h
          · exact downloadFiles_all_pos net modelId hnet rest _ fs₁ _ dl₁ h f hfr
          · exact absurd h (by simp)
      · split at h
        · exact downloadFiles_all_pos net modelId hnet rest _ fs₁ _ dl₁ h f hfr
        · exact absurd h (by simp)

/-- If every required file is already present with nonzero size, the
download loop skips them all: no filesystem change and no downloads. -/
theorem downloadFiles_skip_all (net : String → Option Nat) (modelId : String) :
    ∀ (files : List String) (fs : List (String × Nat)) (dl : List String),
      (∀ f ∈ files, fsPosAt fs (modelFilePath modelId f)) →
      downloadFiles net modelId files fs dl = .ok (fs, dl)
  | [], fs, dl, _ => rfl
  | f :: rest, fs, dl, h => by
    obtain ⟨n, hn, hn0⟩ := h f (by simp)
    simp only [downloadFiles, hn, if_pos hn0]
    exact downloadFiles_skip_all net modelId rest fs dl
      (fun g hg => h g (by simp [hg]))

/-- C8 counterexample: with a network that successfully delivers an empty
file, the first `whisper_download_model` call for tiny succeeds, yet the
second call downloads the same file again — the second download list is not
empty, so the second call is not free of redundant downloads. -/
theorem C8_counterexample :
    whisper_download_model (fun _ => some 0) [] "tiny"
        = .ok ([("whisper_models/tiny/ggml-tiny.bin", 0)], ["ggml-tiny.bin"]) ∧
    whisper_download_model (fun _ => some 0)
        [("whisper_models/tiny/ggml-tiny.bin", 0)] "tiny"
        = .ok ([("whisper_models/tiny/ggml-tiny.bin", 0)], ["ggml-tiny.bin"]) ∧
    (["ggml-tiny.bin"] : List String) ≠ [] :=
  ⟨rfl, rfl, by simp⟩

/-- C8 (amended): after a successful `whisper_download_model` call in which
every download delivered a non-empty file, a second call for the same
identifier performs zero downloads and leaves the filesystem unchanged,
because every required file exists with nonzero size and is skipped. -/
theorem C8_idempotent_download (net : String → Option Nat)
    (fs fs₁ : List (String × Nat)) (model : String) (dl₁ : List String)
    (hnet : ∀ f n, net f = some n → 0 < n)
    (h : whisper_download_model net fs model = .ok (fs₁, dl₁)) :
    whisper_download_model net fs₁ model = .ok (fs₁, []) := by
  unfold whisper_download_model at h ⊢
  cases hc : MODEL_CONFIGS.find? (fun c => c.1 == model) with
  | none => rw [hc] at h; exact absurd h (by simp)
  | some cfg =>
    rw [hc] at h
    exact downloadFiles_skip_all net cfg.1 cfg.2.2 fs₁ []
      (downloadFiles_all_pos net cfg.1 hnet cfg.2.2 fs fs₁ [] dl₁ h)

/-- Witness for C8 (amended) at a concrete network and filesystem. -/
theorem C8_idempotent_download_witness :
    whisper_download_model (fun _ => some 5)
        [("whisper_models/tiny/ggml-tiny.bin", 5)] "tiny"
      = .ok ([("whisper_models/tiny/ggml-tiny.bin", 5)], []) :=
  C8_idempotent_download (fun _ => some 5) [] _ "tiny" ["ggml-tiny.bin"]
    (fun _ n h => by injection h with h2; omega) rfl

/-- C3: the registry entry for large requires ggml-large-v3.bin while the
transcribe path checks ggml-large.bin, so even immediately after a
successful download of large, a transcribe call that reaches model
resolution fails with a model-file-missing error. -/
theorem C3_large_mismatch (net : String → Option Nat)
    (fs fs₁ : List (String × Nat)) (dl : List String) (env : TranscribeEnv)
    (samples : List ℚ) (lang : String)
    (hdl : whisper_download_model net fs "large" = .ok (fs₁, dl))
    (habs : fsLookup fs "whisper_models/large/ggml-large.bin" = none) :
    MODEL_CONFIGS.find? (fun c => c.1 == "large")
        = some ("large", "ggerganov/whisper.cpp", ["ggml-large-v3.bin"]) ∧
    modelFileFor "large" = "whisper_models/large/ggml-large.bin" ∧
    transcribeAfterGate ⟨fs₁, env.slot, env.load, env.engine⟩ samples "large" lang =
      ⟨.error ("Model file missing: " ++ modelFileFor "large"),
       true, false, false, env.slot⟩ := by
  refine ⟨rfl, rfl, ?_⟩
  have hdl1 : downloadFiles net "large" ["ggml-large-v3.bin"] fs [] = .ok (fs₁, dl) := hdl
  have habs1 : fsLookup fs₁ "whisper_models/large/ggml-large.bin" = none := by
    simp only [downloadFiles] at hdl1
    split at hdl1
    · split at hdl1
      · simp only [downloadFiles, Except.ok.injEq, Prod.mk.injEq] at hdl1
        rw [← hdl1.1]; exact habs
      · split at hdl1
        · simp only [downloadFiles, Except.ok.injEq, Prod.mk.injEq] at hdl1
          rw [← hdl1.1, fsLookup_fsSet, if_neg (by decide)]
          exact habs
        · exact absurd hdl1 (by simp)
    · split at hdl1
      · simp only [downloadFiles, Except.ok.injEq, Prod.mk.injEq] at hdl1
        rw [← hdl1.1, fsLookup_fsSet, if_neg (by decide)]
        exact habs
      · exact absurd hdl1 (by simp)
  have habs2 : fsLookup fs₁ (modelFileFor "large") = none := habs1
  simp [transcribeAfterGate, habs2]

/-- Witness for C3 at a concrete network, filesystem and environment. -/
theorem C3_witness :
    MODEL_CONFIGS.find? (fun c => c.1 == "large")
        = some ("large", "ggerganov/whisper.cpp", ["ggml-large-v3.bin"]) ∧
    modelFileFor "large" = "whisper_models/large/ggml-large.bin" ∧
    transcribeAfterGate ⟨[("whisper_models/large/ggml-large-v3.bin", 5)], none,
        .ok (), fun _ _ => .ok ""⟩ [] "large" "en"
      = ⟨.error ("Model file missing: " ++ modelFileFor "large"),
         true, false, false, none⟩ :=
  C3_large_mismatch (fun _ => some 5) []
    [("whisper_models/large/ggml-large-v3.bin", 5)] ["ggml-large-v3.bin"]
    ⟨[], none, .ok (), fun _ _ => .ok ""⟩ [] "en" rfl rfl

/-- C4 counterexample: the four bytes RIFF alone begin with the RIFF magic,
yet the WAV reader fails on them, so the pipeline treats them as raw PCM and
successfully decodes two samples — they are not treated as a WAV container. -/
theorem C4_counterexample :
    ([0x52, 0x49, 0x46, 0x46] : List UInt8).take 4 = riffId ∧
    wavHeader [0x52, 0x49, 0x46, 0x46] = none ∧
    process_audio_for_whisper [0x52, 0x49, 0x46, 0x46]
        = some (.ok ((pcmDecode [0x52, 0x49, 0x46, 0x46]).map
            (fun s : Int => (s : ℚ) / 32768))) ∧
    pcmDecode [0x52, 0x49, 0x46, 0x46] = [18770, 17990] :=
  ⟨rfl, rfl, rfl, by decide⟩

/-- C4 (amended): container detection is decided by WAV-header parseability,
for which the RIFF magic is necessary but not sufficient: any input without
the magic fails the parse, every input failing the parse is treated as raw
signed 16-bit little-endian PCM, and such raw PCM of odd byte length fails
with the invalid-audio error. -/
theorem C4_detection_by_parse (clip : List UInt8) :
    (clip.take 4 ≠ riffId → wavHeader clip = none) ∧
    (wavHeader clip = none → clip.length % 2 = 1 →
      process_audio_for_whisper clip =
        some (.error "Raw PCM data length must be even (16-bit samples)")) ∧
    (wavHeader clip = none → clip.length % 2 = 0 →
      process_audio_for_whisper clip =
        some (.ok ((pcmDecode clip).map (fun s : Int => (s : ℚ) / 32768)))) := by
  refine ⟨?_, ?_, ?_⟩
  · intro h
    unfold wavHeader
    split
    · exact if_neg fun hc => h hc.1
    · rfl
  · intro hw hodd
    simp [process_audio_for_whisper, hw, hodd]
  · intro hw heven
    simp [process_audio_for_whisper, hw, heven]

/-- Witness for C4 (amended) at a concrete one-byte input. -/
theorem C4_witness :
    wavHeader [(1 : UInt8)] = none ∧
    process_audio_for_whisper [(1 : UInt8)]
      = some (.error "Raw PCM data length must be even (16-bit samples)") :=
  ⟨(C4_detection_by_parse [1]).1 (by decide),
   (C4_detection_by_parse [1]).2.1 rfl (by decide)⟩

/-- C7: on every WAV input that parses with 1 declared channel and sample
rate 16000, the pipeline output is exactly the decoded 16-bit integers
divided by 32768, with no downmix, no resampling and unchanged length. -/
theorem C7_mono_16k_identity (clip : List UInt8) (spec : WavSpec) (dataLen : Nat)
    (rest : List UInt8) (samples : List Int)
    (hw : wavHeader clip = some (spec, dataLen, rest))
    (hs : readSamples rest dataLen = some samples)
    (hch : spec.channels = 1) (hr : spec.sampleRate = 16000) :
    process_audio_for_whisper clip
        = some (.ok (samples.map (fun s : Int => (s : ℚ) / 32768))) ∧
    (samples.map (fun s : Int => (s : ℚ) / 32768)).length = samples.length := by
  constructor
  · unfold process_audio_for_whisper
    simp [hw, hs, processWavSamples, hch, hr]
  · rw [List.length_map]

/-- Witness for C7 on a concrete two-sample mono 16 kHz WAV file. -/
theorem C7_witness :
    process_audio_for_whisper monoWav
        = some (.ok (([256, 512] : List Int).map (fun s : Int => (s : ℚ) / 32768))) ∧
    (([256, 512] : List Int).map (fun s : Int => (s : ℚ) / 32768)).length
        = ([256, 512] : List Int).length :=
  C7_mono_16k_identity monoWav ⟨1, 16000, 16⟩ 4 [0, 1, 0, 2] [256, 512]
    (by decide) (by decide) rfl rfl

/-- C10: on every WAV input that parses with 2 declared channels and an odd
number of decoded samples, the downmix indexes a one-element chunk at
position 1 and the pipeline panics instead of returning a value or error. -/
theorem C10_stereo_odd_panics (clip : List UInt8) (spec : WavSpec) (dataLen : Nat)
    (rest : List UInt8) (samples : List Int)
    (hw : wavHeader clip = some (spec, dataLen, rest))
    (hs : readSamples rest dataLen = some samples)
    (hch : spec.channels = 2) (hodd : samples.length % 2 = 1) :
    process_audio_for_whisper clip = none := by
  unfold process_audio_for_whisper
  simp [hw, hs, processWavSamples, hch, downmix_odd samples hodd]

/-- Witness for C10 on a concrete three-sample stereo WAV file. -/
theorem C10_witness : process_audio_for_whisper stereoOddWav = none :=
  C10_stereo_odd_panics stereoOddWav ⟨2, 16000, 16⟩ 6 [1, 0, 2, 0, 3, 0] [1, 2, 3]
    (by decide) (by decide) rfl (by decide)

/-- A sum of squares is nonnegative. -/
theorem sumSquares_nonneg (l : List ℚ) : 0 ≤ sumSquares l := by
  apply List.sum_nonneg
  intro x hx
  obtain ⟨y, _, rfl⟩ := List.mem_map.mp hx
  exact mul_self_nonneg y

/-- The mean square is nonnegative. -/
theorem meanSquare_nonneg (l : List ℚ) : 0 ≤ meanSquare l :=
  div_nonneg (sumSquares_nonneg l) (by exact_mod_cast Nat.zero_le _)

/-- Counting via a conditional fold equals `countP`. -/
theorem foldl_count {α : Type} (p : α → Bool) :
    ∀ (l : List α) (acc : Nat),
      l.foldl (fun a x => if p x then a + 1 else a) acc = acc + l.countP p
  | [], acc => by simp
  | x :: xs, acc => by
    rw [List.foldl_cons, foldl_count p xs, List.countP_cons]
    by_cases h : p x
    · simp [h]; omega
    · simp [h]

/-- Certification of the algebraic square-root comparison: for nonnegative
rationals and a positive threshold, `sqrtGapGt x y c` decides exactly
`sqrt y + c < sqrt x` over the reals. -/
theorem sqrtGapGt_iff (x y c : ℚ) (hx : 0 ≤ x) (hy : 0 ≤ y) (hc : 0 < c) :
    sqrtGapGt x y c = true ↔
      Real.sqrt (y : ℝ) + (c : ℝ) < Real.sqrt (x : ℝ) := by
  unfold sqrtGapGt
  rw [decide_eq_true_eq]
  have hx' : (0 : ℝ) ≤ (x : ℝ) := by exact_mod_cast hx
  have hy' : (0 : ℝ) ≤ (y : ℝ) := by exact_mod_cast hy
  have hc' : (0 : ℝ) < (c : ℝ) := by exact_mod_cast hc
  have hs0 : 0 ≤ Real.sqrt (x : ℝ) := Real.sqrt_nonneg _
  have ht0 : 0 ≤ Real.sqrt (y : ℝ) := Real.sqrt_nonneg _
  have hsx : Real.sqrt (x : ℝ) ^ 2 = (x : ℝ) := Real.sq_sqrt hx'
  have hty : Real.sqrt (y : ℝ) ^ 2 = (y : ℝ) := Real.sq_sqrt hy'
  set s := Real.sqrt (x : ℝ)
  set t := Real.sqrt (y : ℝ)
  constructor
  · rintro ⟨h1, h2⟩
    have h1' : (c : ℝ) ^ 2 < s ^ 2 - t ^ 2 := by
      rw [hsx, hty]; exact_mod_cast h1
    have h2' : 4 * (c : ℝ) ^ 2 * t ^ 2 < (s ^ 2 - t ^ 2 - c ^ 2) ^ 2 := by
      rw [hsx, hty]; exact_mod_cast h2
    have hA : 0 < s ^ 2 - t ^ 2 - (c : ℝ) ^ 2 := by linarith
    have h2ct : 0 ≤ 2 * (c : ℝ) * t := by positivity
    have hAgt : 2 * (c : ℝ) * t < s ^ 2 - t ^ 2 - c ^ 2 := by
      by_contra hn
      push_neg at hn
      nlinarith [mul_nonneg (sub_nonneg.mpr hn)
        (by linarith : (0 : ℝ) ≤ 2 * c * t + (s ^ 2 - t ^ 2 - c ^ 2))]
    have hsq : (t + (c : ℝ)) ^ 2 < s ^ 2 := by nlinarith
    by_contra hle
    push_neg at hle
    have := pow_le_pow_left₀ hs0 hle 2
    linarith
  · intro h
    have hsum : (0 : ℝ) < s + t + c := by linarith
    have key : (0 : ℝ) < s - t - c := by linarith
    have hprod : (0 : ℝ) < s ^ 2 - t ^ 2 - c ^ 2 - 2 * c * t := by
      nlinarith [mul_pos key hsum]
    constructor
    · have hlt : (c : ℝ) ^ 2 < s ^ 2 - t ^ 2 := by
        nlinarith [mul_nonneg ht0 hc'.le]
      rw [hsx, hty] at hlt
      exact_mod_cast hlt
    · have h2ct : 0 ≤ 2 * (c : ℝ) * t := by positivity
      have hlt : 4 * (c : ℝ) ^ 2 * t ^ 2 < (s ^ 2 - t ^ 2 - c ^ 2) ^ 2 := by
        nlinarith [mul_pos hprod
          (by linarith : (0 : ℝ) < s ^ 2 - t ^ 2 - c ^ 2 + 2 * c * t)]
      rw [hsx, hty] at hlt
      exact_mod_cast hlt

/-- Certification of `rmsDiffGt`: it decides exactly whether the RMS values
(real square roots of the mean squares) differ by more than `c`. -/
theorem rmsDiffGt_iff (x y c : ℚ) (hx : 0 ≤ x) (hy : 0 ≤ y) (hc : 0 < c) :
    rmsDiffGt x y c = true ↔
      (c : ℝ) < |Real.sqrt (x : ℝ) - Real.sqrt (y : ℝ)| := by
  unfold rmsDiffGt
  rw [Bool.or_eq_true, sqrtGapGt_iff x y c hx hy hc, sqrtGapGt_iff y x c hy hx hc,
    lt_abs]
  constructor
  · rintro (h | h)
    · left; linarith
    · right; linarith
  · rintro (h | h)
    · left; linarith
    · right; linarith

/-- The fold of the source's variation loop counts exactly the
adjacent-segment pairs of the 10-segment split whose RMS values differ by
more than 0.015. -/
theorem amplitudeChanges_eq (a : List ℚ) (hw : 0 < a.length / 10) :
    amplitudeChanges a = adjacentRmsDiffs a := by
  unfold adjacentRmsDiffs
  have hzip : ((segMeanSqs a).zip ((segMeanSqs a).drop 1))
      = (List.range 9).map (fun i => (segMeanSq a i, segMeanSq a (i + 1))) := rfl
  rw [hzip, List.countP_map]
  simp only [amplitudeChanges]
  rw [if_pos hw, foldl_count, Nat.zero_add]
  apply List.countP_congr
  intro i hi
  have hi9 : i < 9 := List.mem_range.mp hi
  have eA : segMeanSq a i
      = sumSquares ((a.drop (i * (a.length / 10))).take (a.length / 10))
        / ((a.length / 10 : Nat) : ℚ) := by
    simp only [segMeanSq]
    rw [if_neg (by omega : ¬ i = 9)]
    rw [show (i + 1) * (a.length / 10) - i * (a.length / 10) = a.length / 10 by
      rw [Nat.succ_mul]; omega]
  have eB : segMeanSq a (i + 1)
      = sumSquares ((a.drop ((i + 1) * (a.length / 10))).take
          ((if i + 2 < 10 then (i + 2) * (a.length / 10) else a.length)
            - (i + 1) * (a.length / 10)))
        / ((((if i + 2 < 10 then (i + 2) * (a.length / 10) else a.length)
            - (i + 1) * (a.length / 10)) : Nat) : ℚ) := by
    simp only [segMeanSq]
    by_cases hi8 : i + 2 < 10
    · rw [if_pos hi8, if_neg (by omega : ¬ i + 1 = 9)]
    · rw [if_neg hi8, if_pos (by omega : i + 1 = 9)]
  simp only [Function.comp]
  rw [eA, eB]

/-- The energy threshold in squared form decides the RMS comparison of the
source. -/
theorem energy_sqrt_iff (m : ℚ) :
    ((1 : ℚ) / 2500 < m) ↔ ((1 : ℝ) / 50 < Real.sqrt (m : ℝ)) := by
  rw [Real.lt_sqrt (by norm_num : (0 : ℝ) ≤ 1 / 50)]
  rw [show ((1 : ℝ) / 50) ^ 2 = (((1 : ℚ) / 2500 : ℚ) : ℝ) by norm_num]
  constructor
  · intro h; exact_mod_cast h
  · intro h; exact_mod_cast h

/-- C5: the gate never fails; it answers true exactly when the buffer has at
least 8000 samples, its RMS exceeds 0.02, its peak exceeds 0.1, and at least
3 of the 9 adjacent pairs of the 10-segment split have RMS values differing
by more than 0.015; in particular it answers false on the empty buffer and
on any buffer shorter than 8000 samples regardless of amplitude. -/
theorem C5_speech_gate (a : List ℚ) :
    (detect_speech_activity a = .ok true ↔
      (8000 ≤ a.length ∧
       (1 : ℝ) / 50 < Real.sqrt (meanSquare a : ℝ) ∧
       (1 : ℚ) / 10 < peakAmp a ∧
       3 ≤ adjacentRmsDiffs a)) ∧
    (∃ b, detect_speech_activity a = .ok b) ∧
    detect_speech_activity [] = .ok false ∧
    (a.length < 8000 → detect_speech_activity a = .ok false) := by
  refine ⟨?_, ?_, rfl, ?_⟩
  · unfold detect_speech_activity
    by_cases he : a.isEmpty
    · rw [if_pos he]
      have hlen0 : a.length = 0 := by
        rwa [List.isEmpty_iff_length_eq_zero] at he
      simp [hlen0]
    · rw [if_neg he]
      by_cases hlen : a.length < 8000
      · rw [if_pos hlen]
        constructor
        · intro h; exact absurd h (by simp)
        · rintro ⟨h8, -⟩; omega
      · rw [if_neg hlen]
        have h8 : 8000 ≤ a.length := Nat.le_of_not_lt hlen
        have hw : 0 < a.length / 10 := by
          have h800 : 800 ≤ a.length / 10 := by
            calc 800 = 8000 / 10 := rfl
            _ ≤ a.length / 10 := Nat.div_le_div_right h8
          omega
        simp only [Except.ok.injEq, Bool.and_eq_true, decide_eq_true_eq]
        constructor
        · rintro ⟨⟨hE, hP⟩, hV⟩
          exact ⟨h8, (energy_sqrt_iff _).mp hE, hP,
            by rw [← amplitudeChanges_eq a hw]; exact hV⟩
        · rintro ⟨-, hE, hP, hV⟩
          exact ⟨⟨(energy_sqrt_iff _).mpr hE, hP⟩,
            by rw [amplitudeChanges_eq a hw]; exact hV⟩
  · unfold detect_speech_activity
    by_cases he : a.isEmpty
    · rw [if_pos he]; exact ⟨false, rfl⟩
    · rw [if_neg he]
      by_cases hlen : a.length < 8000
      · rw [if_pos hlen]; exact ⟨false, rfl⟩
      · rw [if_neg hlen]; exact ⟨_, rfl⟩
  · intro h
    unfold detect_speech_activity
    by_cases he : a.isEmpty
    · rw [if_pos he]
    · rw [if_neg he, if_pos h]

/-- Witness for C5: a loud one-sample buffer is still rejected because it is
shorter than 8000 samples. -/
theorem C5_speech_gate_witness :
    detect_speech_activity [(1 : ℚ)] = Except.ok false ∧
    [(1 : ℚ)].length < 8000 :=
  ⟨(C5_speech_gate [(1 : ℚ)]).2.2.2 (by decide), by decide⟩

end VRCTalk
